import Mathlib

/-!
Shallow embedding of the contractor license verification core
(`src/scraper.py`), covering the verification orchestrator
(`verify_license`), the two site drivers (`verify_license_playwright`,
`verify_license_requests`), the static state registry (`STATE_CONFIGS`)
and the batch coordinator (`verify_batch`).

Python strings become Lean `String`; optional arguments become
`Option String` (with `none` playing the role of Python `None`); Python
exceptions become `Except String`; the external world (browser session,
HTTP transport) is an explicit environment of step outcomes; the result
dictionaries become one `VerificationResult` structure whose absent keys
are `none`-valued fields.
-/

namespace ContractorVerifier

/-- Python truthiness of an optional string: `None` and `""` are falsy,
every other string is truthy (used by `if not state`, `if license_number`). -/
def pyTruthy : Option String → Bool
  | none => false
  | some s => decide (s ≠ "")

/-- Python `str()` / f-string rendering of an optional string:
`None` renders as the literal text "None". -/
def pyStr : Option String → String
  | none => "None"
  | some s => s

/-- Python `s.upper()` (ASCII case mapping on each character). -/
def pyUpper (s : String) : String :=
  String.mk (s.data.map Char.toUpper)

/-- Python `s.lower()` (ASCII case mapping on each character). -/
def pyLower (s : String) : String :=
  String.mk (s.data.map Char.toLower)

/-- Substring occurrence test on character lists, checking every suffix
for the pattern as a prefix (Python `pat in s`). -/
def listContainsSub (l pat : List Char) : Bool :=
  match l with
  | [] => pat.isEmpty
  | _ :: rest => pat.isPrefixOf l || listContainsSub rest pat

/-- Python substring test `pat in s`. -/
def containsSub (s pat : String) : Bool :=
  listContainsSub s.data pat.data

/-- Replacement of every occurrence of a nonempty character pattern,
scanning left to right (the semantics of Python `str.format` on a template
whose only placeholder is the pattern). An empty pattern is left alone. -/
def replaceChars (pat repl : List Char) : List Char → List Char
  | [] => []
  | c :: rest =>
    if pat ≠ [] ∧ pat.isPrefixOf (c :: rest) then
      repl ++ replaceChars pat repl (rest.drop (pat.length - 1))
    else
      c :: replaceChars pat repl rest
termination_by l => l.length
decreasing_by
  · simp only [List.length_drop, List.length_cons]
    omega
  · simp only [List.length_cons]
    omega

/-- Python `template.format(license_number=license_number)` for templates
whose only placeholder is `\x7blicense_number\x7d`; a `None` argument is
rendered as "None". -/
def format_license (template : String) (license_number : Option String) : String :=
  String.mk (replaceChars "\x7blicense_number\x7d".data (pyStr license_number).data template.data)

/-- Python `d.get(k, default)` on a string-valued dict represented as an
association list (first binding wins, mirroring single assignment per key). -/
def dictGetD (d : List (String × String)) (k dflt : String) : String :=
  match d.lookup k with
  | some v => v
  | none => dflt

/-- Normalized result shape produced by every code path of the core
(`scraper.py` returns plain dicts; absent keys are `none` here). -/
structure VerificationResult where
  status : String
  license_number : Option String := none
  business_name : Option String := none
  issuing_authority : Option String := none
  expires : Option String := none
  screenshot_data : Option (List Nat) := none
  verified : Bool
  message : Option String := none
  supported_states : Option (List String) := none
  raw_html : Option String := none
  deriving Repr, DecidableEq

/-- Per-state entry of `STATE_CONFIGS` in `src/scraper.py` (lines 8-40):
URL, retrieval method, selectors for the interactive driver, and the form
template for the form-submit driver. -/
structure StateConfig where
  url : String
  method : String
  authority : Option String := none
  license_input : String := ""
  search_button : String := ""
  result_selectors : List (String × String) := []
  form_data : List (String × String) := []
  deriving Repr, DecidableEq

/-- CA entry of `STATE_CONFIGS` (`src/scraper.py` lines 9-19). -/
def stateConfigCA : StateConfig :=
  { url := "https://www.cslb.ca.gov/OnlineServices/CheckLicenseII/CheckLicense.aspx"
    method := "playwright"
    license_input := "#ctl00_ContentPlaceHolder1_txtLicnum"
    search_button := "#ctl00_ContentPlaceHolder1_btnSearch"
    result_selectors :=
      [("status", ".license-status"), ("name", ".contractor-name"),
       ("expires", ".expiration-date")] }

/-- TX entry of `STATE_CONFIGS` (`src/scraper.py` lines 20-30). -/
def stateConfigTX : StateConfig :=
  { url := "https://www.tdlr.texas.gov/LicenseSearch/"
    method := "playwright"
    license_input := "#LicenseNumber"
    search_button := "#SearchButton"
    result_selectors :=
      [("status", ".status-field"), ("name", ".business-name"),
       ("expires", ".expiration-field")] }

/-- FL entry of `STATE_CONFIGS` (`src/scraper.py` lines 31-38). -/
def stateConfigFL : StateConfig :=
  { url := "https://www.myfloridalicense.com/wl11.asp"
    method := "requests"
    form_data := [("licnbr", "\x7blicense_number\x7d"), ("Submit", "Search")] }

/-- The state registry `STATE_CONFIGS` (`src/scraper.py` lines 8-40),
as an ordered key-value list (Python dicts preserve insertion order). -/
def STATE_CONFIGS : List (String × StateConfig) :=
  [("CA", stateConfigCA), ("TX", stateConfigTX), ("FL", stateConfigFL)]

/-- Registry lookup `STATE_CONFIGS[state]` / `state in STATE_CONFIGS`. -/
def lookup_state_config (state : String) : Option StateConfig :=
  STATE_CONFIGS.lookup state

/-- Outcome of `page.query_selector(selector)` followed by
`element.text_content()` for one selector: the lookup can raise, find no
element, or produce the element text. -/
inductive QueryOutcome where
  | raised (msg : String)
  | missing
  | found (text : String)
  deriving Repr, DecidableEq

/-- Observable browser-session actions of the interactive driver,
including the release of the session (`browser.close()`). -/
inductive DriverEvent where
  | navigate (url : String)
  | fillField (selector value : String)
  | clickSearch (selector : String)
  | waitLoad
  | takeScreenshot
  | browserClose
  deriving Repr, DecidableEq

/-- Behavior of the external browser page for one driver invocation: the
outcome of each Playwright call the driver makes (`page.goto` with its
network-idle wait, `page.fill`, `page.click`, `page.wait_for_load_state`,
`page.screenshot`, and per-selector `query_selector`/`text_content`).
An `Except.error` is an exception raised by that call. -/
structure PageEnv where
  goto : String → Except String Unit
  fill : String → String → Except String Unit
  click : String → Except String Unit
  wait_for_load : Except String Unit
  screenshot : Except String (List Nat)
  query : String → QueryOutcome

/-- Field-extraction loop of the interactive driver (`src/scraper.py`
lines 64-71): for each configured `(field, selector)` pair, a found
element stores its text, a raised exception stores the literal
"Not found", and a missing element stores nothing for that field. -/
def extract_result_data (q : String → QueryOutcome) :
    List (String × String) → List (String × String)
  | [] => []
  | (field, selector) :: rest =>
    match q selector with
    | .found t => (field, t) :: extract_result_data q rest
    | .missing => extract_result_data q rest
    | .raised _ => (field, "Not found") :: extract_result_data q rest

/-- Body of the `try` block of `verify_license_playwright`
(`src/scraper.py` lines 48-83): navigate, conditionally fill the license
field, click search, wait, screenshot, extract fields, and build the
success dict. Returns the performed actions and the outcome; an
`Except.error` is the uncaught exception escaping the `try` body. -/
def playwright_try_body (env : PageEnv) (state_config : StateConfig)
    (license_number : Option String) :
    List DriverEvent × Except String VerificationResult :=
  match env.goto state_config.url with
  | .error e => ([.navigate state_config.url], .error e)
  | .ok _ =>
    match
      (if pyTruthy license_number then
        ([DriverEvent.fillField state_config.license_input (pyStr license_number)],
          env.fill state_config.license_input (pyStr license_number))
      else (([] : List DriverEvent), Except.ok ())) with
    | (ftr, .error e) => ([.navigate state_config.url] ++ ftr, .error e)
    | (ftr, .ok _) =>
      match env.click state_config.search_button with
      | .error e =>
        ([.navigate state_config.url] ++ ftr ++
          [.clickSearch state_config.search_button], .error e)
      | .ok _ =>
        match env.wait_for_load with
        | .error e =>
          ([.navigate state_config.url] ++ ftr ++
            [.clickSearch state_config.search_button, .waitLoad], .error e)
        | .ok _ =>
          match env.screenshot with
          | .error e =>
            ([.navigate state_config.url] ++ ftr ++
              [.clickSearch state_config.search_button, .waitLoad,
               .takeScreenshot], .error e)
          | .ok screenshot_bytes =>
            let result_data := extract_result_data env.query state_config.result_selectors
            ([.navigate state_config.url] ++ ftr ++
              [.clickSearch state_config.search_button, .waitLoad,
               .takeScreenshot],
             .ok
               { status := dictGetD result_data "status" "Unknown"
                 license_number := license_number
                 business_name := some (dictGetD result_data "name" "Unknown")
                 issuing_authority :=
                   some ((state_config.authority.getD "State") ++ " Licensing Board")
                 expires := some (dictGetD result_data "expires" "Unknown")
                 screenshot_data := some screenshot_bytes
                 verified := true })

/-- Interactive driver `verify_license_playwright` (`src/scraper.py`
lines 42-87): runs the `try` body; on success closes the browser and
returns the dict, on any exception closes the browser and re-raises the
exception wrapped with the scraping-error prefix. The `business_name`
parameter is accepted and never used, as in the source. -/
def verify_license_playwright (env : PageEnv) (state_config : StateConfig)
    (license_number : Option String) (business_name : Option String) :
    List DriverEvent × Except String VerificationResult :=
  match playwright_try_body env state_config license_number with
  | (tr, .ok v) => (tr ++ [.browserClose], .ok v)
  | (tr, .error e) =>
    (tr ++ [.browserClose], .error ("Error scraping license data: " ++ e))

/-- Behavior of the external HTTP transport: the response body text of
`session.post(url, data=form_data)`, or a raised transport exception. -/
structure HttpEnv where
  post : String → List (String × String) → Except String String

/-- Form payload construction of the form-submit driver (`src/scraper.py`
lines 94-99): every templated value containing the license-number
placeholder is formatted with the license number, others pass through. -/
def build_form_data (form_data : List (String × String))
    (license_number : Option String) : List (String × String) :=
  form_data.map fun kv =>
    if containsSub kv.2 "\x7blicense_number\x7d" then
      (kv.1, format_license kv.2 license_number)
    else kv

/-- Status classification of the form-submit driver (`src/scraper.py`
lines 109-119): scan the lowercased body for "active", then "expired",
then "invalid"; default "Unknown". -/
def classify_status (html_content : String) : String :=
  if containsSub (pyLower html_content) "active" then "Active"
  else if containsSub (pyLower html_content) "expired" then "Expired"
  else if containsSub (pyLower html_content) "invalid" then "Invalid"
  else "Unknown"

/-- Form-submit driver `verify_license_requests` (`src/scraper.py`
lines 89-132): build the form payload, POST it, classify the status from
the body, and build the success dict; any exception is re-raised wrapped
with the verifying-error prefix. The `business_name` parameter is
accepted and never used, as in the source. -/
def verify_license_requests (env : HttpEnv) (state_config : StateConfig)
    (license_number : Option String) (business_name : Option String) :
    Except String VerificationResult :=
  match env.post state_config.url (build_form_data state_config.form_data license_number) with
  | .error e => .error ("Error verifying license: " ++ e)
  | .ok html_content =>
    .ok
      { status := classify_status html_content
        license_number := license_number
        business_name := some "Unknown"
        issuing_authority := some "State Licensing Board"
        expires := some "Unknown"
        verified := true
        raw_html := some (String.mk (html_content.data.take 1000)) }

/-- Modelled from the spec: the cache module (`cache.py`, imported by
`src/scraper.py` as `get_cached_result` / `store_result`) is not under
`src/`; spec section 6 gives its capability contract
`get(key) -> VerificationResult?`, `put(key, VerificationResult) -> void`
with no eviction. It is modelled as an in-memory key-value map where a
later `put` to the same key shadows an earlier one. -/
abbrev Cache := List (String × VerificationResult)

/-- Modelled from the spec: cache read `get_cached_result(key)`. -/
def get_cached_result (cache : Cache) (key : String) : Option VerificationResult :=
  cache.lookup key

/-- Modelled from the spec: cache write `store_result(key, result)`. -/
def store_result (cache : Cache) (key : String) (result : VerificationResult) : Cache :=
  (key, result) :: cache

/-- External world for one orchestrator call: the browser page behavior
and the HTTP transport behavior. -/
structure Env where
  page : PageEnv
  http : HttpEnv

/-- Cache key computation of `verify_license` (`src/scraper.py` line 138):
the f-string over the raw arguments, before any validation or
uppercasing, with Python `None` rendered as "None". -/
def cache_key_of (state : String) (license_number business_name : Option String) : String :=
  state ++ "_" ++ pyStr license_number ++ "_" ++ pyStr business_name

/-- Outcome of one `verify_license` call: the returned dict or the raised
exception, the cache state after the call, and how many driver
invocations the call performed. -/
structure VerifyOutcome where
  result : Except String VerificationResult
  cache : Cache
  driverCalls : Nat
  deriving Repr

/-- Driver dispatch of the orchestrator (`src/scraper.py` lines 164-168):
the playwright driver when the profile says so, the requests driver
otherwise. -/
def run_driver (env : Env) (state_config : StateConfig)
    (license_number business_name : Option String) :
    Except String VerificationResult :=
  if state_config.method = "playwright" then
    (verify_license_playwright env.page state_config license_number business_name).2
  else
    verify_license_requests env.http state_config license_number business_name

/-- Verification orchestrator `verify_license` (`src/scraper.py`
lines 134-181): check the cache under the raw-field key, raise on
validation failure, uppercase the state, return an Unsupported dict for
unknown states, otherwise dispatch to the driver, caching successes and
converting driver exceptions to Error dicts. -/
def verify_license (env : Env) (cache : Cache) (state : String)
    (license_number business_name : Option String) : VerifyOutcome :=
  match get_cached_result cache (cache_key_of state license_number business_name) with
  | some cached => ⟨.ok cached, cache, 0⟩
  | none =>
    if state = "" then
      ⟨.error "State is required", cache, 0⟩
    else if pyTruthy license_number = false ∧ pyTruthy business_name = false then
      ⟨.error "Either license number or business name is required", cache, 0⟩
    else
      match lookup_state_config (pyUpper state) with
      | none =>
        ⟨.ok
          { status := "Unsupported"
            message := some ("License verification not yet supported for " ++ pyUpper state)
            supported_states := some (STATE_CONFIGS.map Prod.fst)
            verified := false }, cache, 0⟩
      | some state_config =>
        match run_driver env state_config license_number business_name with
        | .ok result =>
          ⟨.ok result,
            store_result cache (cache_key_of state license_number business_name) result, 1⟩
        | .error e =>
          ⟨.ok
            { status := "Error"
              message := some e
              license_number := license_number
              verified := false }, cache, 1⟩

/-- One query dict of a batch request (`r.get("state")`,
`r.get("license_number")`, `r.get("business_name")`). -/
structure Query where
  state : String
  license_number : Option String := none
  business_name : Option String := none
  deriving Repr, DecidableEq

/-- Per-item post-processing of `verify_batch` (`src/scraper.py`
lines 199-208): a returned dict passes through, a raised exception is
converted to an Error dict carrying that query's license number. -/
def batch_item (env : Env) (cache : Cache) (q : Query) : VerificationResult :=
  match (verify_license env cache q.state q.license_number q.business_name).result with
  | .ok v => v
  | .error e =>
    { status := "Error"
      message := some e
      license_number := q.license_number
      verified := false }

/-- Indexed traversal of the batch: item i runs against the external
world of slot i. Every item reads the batch-initial cache: under the
cooperative scheduler each coroutine performs its synchronous cache read
before any driver await completes, so no item observes a sibling's write. -/
def verify_batch_go (env : Nat → Env) (cache : Cache) :
    Nat → List Query → List VerificationResult
  | _, [] => []
  | i, q :: rest => batch_item (env i) cache q :: verify_batch_go env cache (i + 1) rest

/-- Batch coordinator `verify_batch` (`src/scraper.py` lines 183-210):
one orchestrator invocation per query, gathered with exceptions captured,
then converted positionally into result dicts. -/
def verify_batch (env : Nat → Env) (cache : Cache) (requests : List Query) :
    List VerificationResult :=
  verify_batch_go env cache 0 requests

/-! Concrete external-world behaviors used to evaluate the embedding on
closed inputs. -/

/-- Browser page on which every step succeeds and every selector resolves
to an element with text "Active". -/
def pageHappy : PageEnv :=
  { goto := fun _ => .ok ()
    fill := fun _ _ => .ok ()
    click := fun _ => .ok ()
    wait_for_load := .ok ()
    screenshot := .ok [1, 2, 3]
    query := fun _ => .found "Active" }

/-- Browser page on which every step succeeds and the status element
carries the lowercase raw text "active". -/
def pageRawStatus : PageEnv :=
  { pageHappy with query := fun _ => .found "active" }

/-- Browser page on which every step succeeds but no configured selector
matches any element. -/
def pageMissing : PageEnv :=
  { pageHappy with query := fun _ => .missing }

/-- Browser page on which navigation raises a timeout exception. -/
def pageFail : PageEnv :=
  { pageHappy with goto := fun _ => .error "network timeout" }

/-- HTTP transport answering every POST with a body marking the license
active. -/
def httpActive : HttpEnv :=
  { post := fun _ _ => .ok "Status: ACTIVE license" }

/-- HTTP transport answering every POST with the expired-license body of
the spec's concrete scenario. -/
def httpExpired : HttpEnv :=
  { post := fun _ _ => .ok "License EXPIRED for this contractor" }

/-- Default happy external world. -/
def env0 : Env :=
  { page := pageHappy, http := httpActive }

/-- External world whose browser reports the raw lowercase status. -/
def envRawStatus : Env :=
  { page := pageRawStatus, http := httpActive }

/-- Result of the CA interactive lookup against `pageHappy` for license
"123456". -/
def resultHappyCA : VerificationResult :=
  { status := "Active"
    license_number := some "123456"
    business_name := some "Active"
    issuing_authority := some "State Licensing Board"
    expires := some "Active"
    screenshot_data := some [1, 2, 3]
    verified := true }

/-- Result of the CA interactive lookup against `pageRawStatus` for
license "123". -/
def resultRawCA : VerificationResult :=
  { status := "active"
    license_number := some "123"
    business_name := some "active"
    issuing_authority := some "State Licensing Board"
    expires := some "active"
    screenshot_data := some [1, 2, 3]
    verified := true }

/-- Result of the CA interactive lookup against `pageMissing` for license
"123". -/
def resultMissingCA : VerificationResult :=
  { status := "Unknown"
    license_number := some "123"
    business_name := some "Unknown"
    issuing_authority := some "State Licensing Board"
    expires := some "Unknown"
    screenshot_data := some [1, 2, 3]
    verified := true }

/-- Result of the FL form lookup against `httpActive` for license "42". -/
def resultFLActive : VerificationResult :=
  { status := "Active"
    license_number := some "42"
    business_name := some "Unknown"
    issuing_authority := some "State Licensing Board"
    expires := some "Unknown"
    verified := true
    raw_html := some "Status: ACTIVE license" }

/-- Result of the FL form lookup against `httpActive` for license "999". -/
def resultFL999 : VerificationResult :=
  { status := "Active"
    license_number := some "999"
    business_name := some "Unknown"
    issuing_authority := some "State Licensing Board"
    expires := some "Unknown"
    verified := true
    raw_html := some "Status: ACTIVE license" }

/-- Result of the FL form lookup against `httpExpired` for license "77". -/
def resultFLExpired : VerificationResult :=
  { status := "Expired"
    license_number := some "77"
    business_name := some "Unknown"
    issuing_authority := some "State Licensing Board"
    expires := some "Unknown"
    verified := true
    raw_html := some "License EXPIRED for this contractor" }

/-! Helper lemmas shared by the claim theorems. -/

/-- Storing under a key makes the very next read of that key return the
stored result. -/
theorem get_cached_result_store (cache : Cache) (key : String) (v : VerificationResult) :
    get_cached_result (store_result cache key v) key = some v := by
  simp [get_cached_result, store_result, List.lookup]

/-- A pattern is contained in any character list that ends with it. -/
theorem listContainsSub_append_self (l pat : List Char) :
    listContainsSub (l ++ pat) pat = true := by
  induction l with
  | nil =>
    cases pat with
    | nil => rfl
    | cons c rest =>
      simp [listContainsSub, List.isPrefixOf_iff_prefix]
  | cons c l ih =>
    simp [listContainsSub, ih]

/-! Theorems settling the claims. -/

/-- C1: the claim says `verify` never raises and turns the empty-state
query into a result with status "Error" and message "state is required".
On the code, `verify_license` raises the exception "State is required"
for the empty state instead of returning a result: the call's outcome is
an `Except.error`, and nothing is written to the cache. -/
theorem C1_counterexample :
    (verify_license env0 [] "" none none).result = Except.error "State is required" ∧
    (verify_license env0 [] "" none none).cache = [] :=
  ⟨rfl, rfl⟩

/-- C1 (amended): on a cache miss, a query with empty state makes
`verify_license` raise the exception "State is required", and a query
with a non-empty state but neither license number nor business name makes
it raise "Either license number or business name is required"; in both
cases the cache is left unchanged and no driver runs. -/
theorem C1_validation_raises (env : Env) (cache : Cache) (state : String)
    (license_number business_name : Option String)
    (hmiss : get_cached_result cache (cache_key_of state license_number business_name) = none) :
    (state = "" →
      verify_license env cache state license_number business_name =
        ⟨Except.error "State is required", cache, 0⟩) ∧
    (state ≠ "" → pyTruthy license_number = false → pyTruthy business_name = false →
      verify_license env cache state license_number business_name =
        ⟨Except.error "Either license number or business name is required", cache, 0⟩) := by
  constructor
  · intro h
    subst h
    simp [verify_license, hmiss]
  · intro h1 h2 h3
    simp [verify_license, hmiss, h1, h2, h3]

/-- C1 witness: the amended statement evaluated on the empty-state query
with an empty cache. -/
theorem C1_validation_raises_witness :
    verify_license env0 [] "" none none = ⟨Except.error "State is required", [], 0⟩ :=
  (C1_validation_raises env0 [] "" none none rfl).1 rfl

/-- C2: the claim says the first call with state "ca" and license
"123456" populates the cache under the normalized key "CA_123456_None".
On the code, the key is built from the raw fields before uppercasing: the
driver runs once and the entry lands under "ca_123456_None", while
"CA_123456_None" stays absent. -/
theorem C2_counterexample :
    (verify_license env0 [] "ca" (some "123456") none).driverCalls = 1 ∧
    get_cached_result (verify_license env0 [] "ca" (some "123456") none).cache
      "ca_123456_None" = some resultHappyCA ∧
    get_cached_result (verify_license env0 [] "ca" (some "123456") none).cache
      "CA_123456_None" = none :=
  ⟨rfl, rfl, rfl⟩

/-- C2 (amended): the cache key joins the raw, un-normalized, untrimmed
query fields with underscores (absent fields rendering as "None"), so the
first call with state "ca" and license "123456" invokes the driver once
and populates the cache under "ca_123456_None", and the second identical
call is a cache hit returning the same result with zero additional driver
invocations. -/
theorem C2_cache_key_raw_fields :
    cache_key_of "ca" (some "123456") none = "ca_123456_None" ∧
    (verify_license env0 [] "ca" (some "123456") none).driverCalls = 1 ∧
    get_cached_result (verify_license env0 [] "ca" (some "123456") none).cache
      "ca_123456_None" = some resultHappyCA ∧
    verify_license env0 (verify_license env0 [] "ca" (some "123456") none).cache
        "ca" (some "123456") none =
      ⟨Except.ok resultHappyCA,
        (verify_license env0 [] "ca" (some "123456") none).cache, 0⟩ :=
  ⟨rfl, rfl, rfl, rfl⟩

/-- C7: the claim says every query whose uppercased state is outside the
registry gets an Unsupported result. On the code, such a query that also
lacks both identifying fields makes `verify_license` raise the
validation exception instead of returning Unsupported. -/
theorem C7_counterexample :
    (verify_license env0 [] "ZZ" none none).result =
      Except.error "Either license number or business name is required" :=
  rfl

/-- C7 (amended): for a query that passes validation (non-empty state and
at least one identifying field) and misses the cache, an uppercased state
outside the registry yields status "Unsupported" with `verified = false`,
a message naming the uppercased state, and the registry's full code set
as supported states; the cache is unchanged and no driver runs. -/
theorem C7_unsupported_state (env : Env) (cache : Cache) (state : String)
    (license_number business_name : Option String)
    (hmiss : get_cached_result cache (cache_key_of state license_number business_name) = none)
    (hne : state ≠ "")
    (hid : pyTruthy license_number = true ∨ pyTruthy business_name = true)
    (hcfg : lookup_state_config (pyUpper state) = none) :
    verify_license env cache state license_number business_name =
      ⟨Except.ok
        { status := "Unsupported"
          message := some ("License verification not yet supported for " ++ pyUpper state)
          supported_states := some (STATE_CONFIGS.map Prod.fst)
          verified := false }, cache, 0⟩ ∧
    STATE_CONFIGS.map Prod.fst = ["CA", "TX", "FL"] ∧
    containsSub ("License verification not yet supported for " ++ pyUpper state)
      (pyUpper state) = true := by
  have hvalid : ¬(pyTruthy license_number = false ∧ pyTruthy business_name = false) := by
    rcases hid with h | h <;> simp [h]
  refine ⟨?_, rfl, ?_⟩
  · simp [verify_license, hmiss, hne, hvalid, hcfg]
  · unfold containsSub
    have hdata : ("License verification not yet supported for " ++ pyUpper state).data =
        "License verification not yet supported for ".data ++ (pyUpper state).data := by
      rfl
    rw [hdata]
    exact listContainsSub_append_self _ _

/-- C7 witness: the amended statement evaluated on state "zz" with a
license number and an empty cache. -/
theorem C7_unsupported_state_witness :
    verify_license env0 [] "zz" (some "1") none =
      ⟨Except.ok
        { status := "Unsupported"
          message := some "License verification not yet supported for ZZ"
          supported_states := some ["CA", "TX", "FL"]
          verified := false }, [], 0⟩ :=
  (C7_unsupported_state env0 [] "zz" (some "1") none rfl (by decide)
    (Or.inl (by decide)) rfl).1

/-- C8: idempotence through the cache: on a cache miss, a valid query
whose driver dispatch succeeds returns that driver result, stores it
under the query's key, and an identical second call returns the very same
result from the cache with zero driver invocations and no cache change. -/
theorem C8_cache_idempotence (env : Env) (cache : Cache) (state : String)
    (license_number business_name : Option String) (state_config : StateConfig)
    (v : VerificationResult)
    (hmiss : get_cached_result cache (cache_key_of state license_number business_name) = none)
    (hne : state ≠ "")
    (hid : pyTruthy license_number = true ∨ pyTruthy business_name = true)
    (hcfg : lookup_state_config (pyUpper state) = some state_config)
    (hdrv : run_driver env state_config license_number business_name = Except.ok v) :
    verify_license env cache state license_number business_name =
      ⟨Except.ok v, store_result cache (cache_key_of state license_number business_name) v, 1⟩ ∧
    verify_license env (store_result cache (cache_key_of state license_number business_name) v)
        state license_number business_name =
      ⟨Except.ok v, store_result cache (cache_key_of state license_number business_name) v, 0⟩ := by
  have hvalid : ¬(pyTruthy license_number = false ∧ pyTruthy business_name = false) := by
    rcases hid with h | h <;> simp [h]
  constructor
  · simp [verify_license, hmiss, hne, hvalid, hcfg, hdrv]
  · simp [verify_license, get_cached_result_store]

/-- C8 witness: the idempotence statement evaluated on the FL form driver
with license "999" against the happy HTTP transport. -/
theorem C8_cache_idempotence_witness :
    verify_license env0 [] "FL" (some "999") none =
      ⟨Except.ok resultFL999, store_result [] "FL_999_None" resultFL999, 1⟩ ∧
    verify_license env0 (store_result [] "FL_999_None" resultFL999) "FL" (some "999") none =
      ⟨Except.ok resultFL999, store_result [] "FL_999_None" resultFL999, 0⟩ :=
  C8_cache_idempotence env0 [] "FL" (some "999") none stateConfigFL resultFL999
    rfl (by decide) (Or.inl (by decide)) rfl rfl

/-- C10: the `business_name` argument never influences driver execution
or the driver result: for any page or transport behavior, configuration
and license number, two invocations of either driver that differ only in
`business_name` perform the same actions and return equal results. -/
theorem C10_business_name_noninterference (penv : PageEnv) (henv : HttpEnv)
    (cfg : StateConfig) (license_number bn1 bn2 : Option String) :
    verify_license_playwright penv cfg license_number bn1 =
      verify_license_playwright penv cfg license_number bn2 ∧
    verify_license_requests henv cfg license_number bn1 =
      verify_license_requests henv cfg license_number bn2 :=
  ⟨rfl, rfl⟩

/-- The batch traversal preserves the length of the input sequence. -/
theorem verify_batch_go_length (env : Nat → Env) (cache : Cache) :
    ∀ (requests : List Query) (n : Nat),
      (verify_batch_go env cache n requests).length = requests.length := by
  intro requests
  induction requests with
  | nil => intro n; rfl
  | cons q rest ih =>
    intro n
    simp [verify_batch_go, ih]

/-- Element i of the batch traversal started at offset n is the processed
item of query i against the world of slot n + i. -/
theorem verify_batch_go_getElem (env : Nat → Env) (cache : Cache) :
    ∀ (requests : List Query) (n i : Nat),
      (verify_batch_go env cache n requests)[i]? =
        (requests[i]?).map (fun q => batch_item (env (n + i)) cache q) := by
  intro requests
  induction requests with
  | nil => intro n i; simp [verify_batch_go]
  | cons q rest ih =>
    intro n i
    cases i with
    | zero => simp [verify_batch_go]
    | succ j =>
      simp only [verify_batch_go, List.getElem?_cons_succ]
      rw [ih (n + 1) j]
      have h : n + 1 + j = n + (j + 1) := by omega
      rw [h]

/-- C3: `verify_batch` returns one result per query, in input order: the
output has the input's length, and the result at index i is exactly the
conversion of query i's own `verify_license` outcome — a returned dict
passes through unchanged, and a raised exception becomes an Error result
with `verified = false` carrying that query's license number; every
item's slot depends only on its own query and world, so the other items
are unaffected. -/
theorem C3_batch_order_and_isolation (env : Nat → Env) (cache : Cache)
    (requests : List Query) :
    (verify_batch env cache requests).length = requests.length ∧
    ∀ i q, requests[i]? = some q →
      (verify_batch env cache requests)[i]? =
        some (match (verify_license (env i) cache q.state q.license_number q.business_name).result with
          | .ok v => v
          | .error e =>
            { status := "Error"
              message := some e
              license_number := q.license_number
              verified := false }) := by
  constructor
  · exact verify_batch_go_length env cache requests 0
  · intro i q hq
    rw [verify_batch, verify_batch_go_getElem env cache requests 0 i, hq]
    simp [batch_item]

/-- C3 witness: a two-item batch whose first query raises the validation
exception and whose second query succeeds: the output has length two, the
exception is converted in slot zero, and slot one is untouched. -/
theorem C3_batch_order_witness :
    (verify_batch (fun _ => env0) [] [⟨"", none, none⟩, ⟨"FL", some "42", none⟩]).length = 2 ∧
    (verify_batch (fun _ => env0) [] [⟨"", none, none⟩, ⟨"FL", some "42", none⟩])[0]? =
      some
        { status := "Error"
          message := some "State is required"
          license_number := none
          verified := false } ∧
    (verify_batch (fun _ => env0) [] [⟨"", none, none⟩, ⟨"FL", some "42", none⟩])[1]? =
      some resultFLActive := by
  refine ⟨(C3_batch_order_and_isolation (fun _ => env0) [] _).1, ?_, ?_⟩
  · exact (C3_batch_order_and_isolation (fun _ => env0) [] _).2 0 ⟨"", none, none⟩ rfl
  · exact (C3_batch_order_and_isolation (fun _ => env0) [] _).2 1 ⟨"FL", some "42", none⟩ rfl

/-- C6: the form-submit driver classifies the response body by scanning
its lowercased text for the markers in the order "active", "expired",
"invalid", mapping the first match to the corresponding status and
defaulting to "Unknown"; in particular the body
"License EXPIRED for this contractor" yields the result status
"Expired" through `verify_license_requests` on the FL profile. -/
theorem C6_form_marker_classification :
    (∀ html : String,
      (classify_status html = "Active" ↔
        containsSub (pyLower html) "active" = true) ∧
      (classify_status html = "Expired" ↔
        (containsSub (pyLower html) "active" = false ∧
          containsSub (pyLower html) "expired" = true)) ∧
      (classify_status html = "Invalid" ↔
        (containsSub (pyLower html) "active" = false ∧
          containsSub (pyLower html) "expired" = false ∧
          containsSub (pyLower html) "invalid" = true)) ∧
      (classify_status html = "Unknown" ↔
        (containsSub (pyLower html) "active" = false ∧
          containsSub (pyLower html) "expired" = false ∧
          containsSub (pyLower html) "invalid" = false))) ∧
    verify_license_requests httpExpired stateConfigFL (some "77") none =
      Except.ok resultFLExpired ∧
    resultFLExpired.status = "Expired" := by
  refine ⟨?_, rfl, rfl⟩
  intro html
  unfold classify_status
  cases h1 : containsSub (pyLower html) "active" <;>
    cases h2 : containsSub (pyLower html) "expired" <;>
      cases h3 : containsSub (pyLower html) "invalid" <;>
        simp [h1, h2, h3]

/-- C9: the interactive driver emits the session release as its final
action on every exit path — for every page behavior the action trace ends
with `browserClose` — and whenever the call surfaces a failure, the
failure message is the cause of the exception that escaped the session
body, qualified with the scraping-error prefix. -/
theorem C9_session_release (env : PageEnv) (cfg : StateConfig)
    (license_number business_name : Option String) :
    ((verify_license_playwright env cfg license_number business_name).1).getLast? =
      some DriverEvent.browserClose ∧
    ∀ e, (verify_license_playwright env cfg license_number business_name).2 = Except.error e →
      ∃ cause, e = "Error scraping license data: " ++ cause ∧
        (playwright_try_body env cfg license_number).2 = Except.error cause := by
  rcases htb : playwright_try_body env cfg license_number with ⟨tr, r⟩
  constructor
  · cases r <;> simp [verify_license_playwright, htb]
  · intro e he
    cases r with
    | ok v => simp [verify_license_playwright, htb] at he
    | error e0 =>
      simp only [verify_license_playwright, htb] at he
      exact ⟨e0, (Except.error.inj he).symm, rfl⟩

/-- C9 witness: the release statement evaluated on a page whose
navigation raises a timeout. -/
theorem C9_session_release_witness :
    ((verify_license_playwright pageFail stateConfigCA (some "1") none).1).getLast? =
      some DriverEvent.browserClose ∧
    ∃ cause, "Error scraping license data: network timeout" =
        "Error scraping license data: " ++ cause ∧
      (playwright_try_body pageFail stateConfigCA (some "1")).2 = Except.error cause :=
  ⟨(C9_session_release pageFail stateConfigCA (some "1") none).1,
    (C9_session_release pageFail stateConfigCA (some "1") none).2
      "Error scraping license data: network timeout" rfl⟩

/-- Shape of a successful run of the interactive session body: the dict
is verified and its status is read verbatim from the extracted field map,
defaulting to "Unknown" when the status field is absent. -/
theorem playwright_try_body_ok_shape (env : PageEnv) (cfg : StateConfig)
    (license_number : Option String) (tr : List DriverEvent) (v : VerificationResult)
    (h : playwright_try_body env cfg license_number = (tr, Except.ok v)) :
    v.verified = true ∧
    v.status =
      dictGetD (extract_result_data env.query cfg.result_selectors) "status" "Unknown" := by
  unfold playwright_try_body at h
  repeat' split at h
  all_goals
    first
      | (injection h with h1 h2
         injection h2 with h2
         subst h2
         exact ⟨rfl, rfl⟩)
      | simp_all

/-- Shape of a successful run of the interactive driver, lifted through
the session release and exception wrapping. -/
theorem verify_license_playwright_ok_shape (env : PageEnv) (cfg : StateConfig)
    (license_number business_name : Option String) (v : VerificationResult)
    (h : (verify_license_playwright env cfg license_number business_name).2 = Except.ok v) :
    v.verified = true ∧
    v.status =
      dictGetD (extract_result_data env.query cfg.result_selectors) "status" "Unknown" := by
  rcases htb : playwright_try_body env cfg license_number with ⟨tr, r⟩
  cases r with
  | ok w =>
    simp only [verify_license_playwright, htb] at h
    exact Except.ok.inj h ▸ playwright_try_body_ok_shape env cfg license_number tr w htb
  | error e =>
    simp [verify_license_playwright, htb] at h

/-- Shape of a successful run of the form-submit driver: the dict is
verified and its status lies in the closed enumeration. -/
theorem verify_license_requests_ok_shape (env : HttpEnv) (cfg : StateConfig)
    (license_number business_name : Option String) (v : VerificationResult)
    (h : verify_license_requests env cfg license_number business_name = Except.ok v) :
    v.verified = true ∧
    (["Active", "Expired", "Invalid", "Unknown"] : List String).contains v.status = true := by
  unfold verify_license_requests at h
  split at h
  · exact absurd h (by simp)
  · replace h := Except.ok.inj h
    subst h
    refine ⟨rfl, ?_⟩
    show (["Active", "Expired", "Invalid", "Unknown"] : List String).contains
      (classify_status _) = true
    unfold classify_status
    repeat' split
    all_goals rfl

/-- C4: the claim says every driver-success status is mapped
case-insensitively into the enumeration. On the code, the interactive
driver copies the raw status text verbatim: a page whose status element
reads "active" produces a verified, cached result whose status is the
string "active", which lies outside the enumeration (the case-mapped
form would be "Active"). -/
theorem C4_counterexample :
    (verify_license envRawStatus [] "CA" (some "123") none).result = Except.ok resultRawCA ∧
    resultRawCA.status = "active" ∧
    (["Active", "Expired", "Invalid", "Unknown"] : List String).contains "active" = false :=
  ⟨rfl, rfl, rfl⟩

/-- C4 (amended): on driver success the orchestrator returns the driver
dict with `verified = true` and stores it in the cache under the step-1
key; the form-submit driver's status is always one of the enumeration
Active, Expired, Invalid, Unknown, but the interactive driver's status is
the raw extracted text taken verbatim, defaulting to "Unknown" only when
the status field is absent, with no case-insensitive mapping applied. -/
theorem C4_success_normalization :
    (∀ (env : Env) (cache : Cache) (state : String)
        (license_number business_name : Option String)
        (state_config : StateConfig) (v : VerificationResult),
        get_cached_result cache (cache_key_of state license_number business_name) = none →
        state ≠ "" →
        (pyTruthy license_number = true ∨ pyTruthy business_name = true) →
        lookup_state_config (pyUpper state) = some state_config →
        run_driver env state_config license_number business_name = Except.ok v →
        verify_license env cache state license_number business_name =
          ⟨Except.ok v,
            store_result cache (cache_key_of state license_number business_name) v, 1⟩) ∧
    (∀ (env : HttpEnv) (cfg : StateConfig) (license_number business_name : Option String)
        (v : VerificationResult),
        verify_license_requests env cfg license_number business_name = Except.ok v →
        v.verified = true ∧
        (["Active", "Expired", "Invalid", "Unknown"] : List String).contains v.status = true) ∧
    (∀ (env : PageEnv) (cfg : StateConfig) (license_number business_name : Option String)
        (v : VerificationResult),
        (verify_license_playwright env cfg license_number business_name).2 = Except.ok v →
        v.verified = true ∧
        v.status =
          dictGetD (extract_result_data env.query cfg.result_selectors) "status" "Unknown") := by
  refine ⟨?_, ?_, ?_⟩
  · intro env cache state license_number business_name state_config v
      hmiss hne hid hcfg hdrv
    have hvalid : ¬(pyTruthy license_number = false ∧ pyTruthy business_name = false) := by
      rcases hid with h | h <;> simp [h]
    simp [verify_license, hmiss, hne, hvalid, hcfg, hdrv]
  · intro env cfg license_number business_name v h
    exact verify_license_requests_ok_shape env cfg license_number business_name v h
  · intro env cfg license_number business_name v h
    exact verify_license_playwright_ok_shape env cfg license_number business_name v h

/-- C4 witness: the amended statement evaluated on the FL form driver
(status inside the enumeration, result cached) and on the CA interactive
driver against the raw-status page (status copied verbatim). -/
theorem C4_success_normalization_witness :
    verify_license env0 [] "FL" (some "42") none =
      ⟨Except.ok resultFLActive, store_result [] "FL_42_None" resultFLActive, 1⟩ ∧
    resultFLActive.verified = true ∧
    (["Active", "Expired", "Invalid", "Unknown"] : List String).contains
      resultFLActive.status = true ∧
    resultRawCA.verified = true ∧
    resultRawCA.status =
      dictGetD (extract_result_data pageRawStatus.query stateConfigCA.result_selectors)
        "status" "Unknown" := by
  refine ⟨?_, ?_, ?_, ?_, ?_⟩
  · exact C4_success_normalization.1 env0 [] "FL" (some "42") none stateConfigFL
      resultFLActive rfl (by decide) (Or.inl (by decide)) rfl rfl
  · exact (C4_success_normalization.2.1 httpActive stateConfigFL (some "42") none
      resultFLActive rfl).1
  · exact (C4_success_normalization.2.1 httpActive stateConfigFL (some "42") none
      resultFLActive rfl).2
  · exact (C4_success_normalization.2.2 pageRawStatus stateConfigCA (some "123") none
      resultRawCA rfl).1
  · exact (C4_success_normalization.2.2 pageRawStatus stateConfigCA (some "123") none
      resultRawCA rfl).2

/-- Extraction never binds a field that the selector configuration does
not mention. -/
theorem extract_result_data_lookup_none (q : String → QueryOutcome) (field : String) :
    ∀ sels : List (String × String), field ∉ sels.map Prod.fst →
      (extract_result_data q sels).lookup field = none := by
  intro sels
  induction sels with
  | nil => intro _; rfl
  | cons p rest ih =>
    intro h
    rcases p with ⟨f, sel⟩
    simp only [List.map_cons, List.mem_cons, not_or] at h
    rcases h with ⟨hne, hrest⟩
    have hbeq : (field == f) = false := by simp [hne]
    unfold extract_result_data
    cases q sel with
    | found t => simp [List.lookup, hbeq, ih hrest]
    | missing => exact ih hrest
    | raised m => simp [List.lookup, hbeq, ih hrest]

/-- C5: the claim says a configured field whose element is missing from
the page is extracted as the literal "Not found". On the code, a missing
element stores nothing for that field: with every CA selector missing the
extracted map is empty, the field lookup finds nothing, and the returned
dict falls back to "Unknown" (not "Not found") while still succeeding. -/
theorem C5_counterexample :
    extract_result_data (fun _ => QueryOutcome.missing) stateConfigCA.result_selectors = [] ∧
    (extract_result_data (fun _ => QueryOutcome.missing)
        stateConfigCA.result_selectors).lookup "status" = none ∧
    (verify_license_playwright pageMissing stateConfigCA (some "123") none).2 =
      Except.ok resultMissingCA ∧
    resultMissingCA.status = "Unknown" ∧
    resultMissingCA.business_name = some "Unknown" :=
  ⟨rfl, rfl, rfl, rfl, rfl⟩

/-- C5 (amended): in the interactive driver's extraction, a field whose
read raises an exception is bound to the literal "Not found"; a field
whose element is simply missing is left unbound (so the result dict later
defaults it, the status for instance to "Unknown"); and no extraction
outcome fails the query — whenever navigation, fill, click, wait and
screenshot succeed, the driver succeeds whatever the selectors yield. -/
theorem C5_missing_field_behavior :
    (∀ (q : String → QueryOutcome) (field selector : String)
        (rest : List (String × String)) (msg : String),
        q selector = QueryOutcome.raised msg →
        (extract_result_data q ((field, selector) :: rest)).lookup field =
          some "Not found") ∧
    (∀ (q : String → QueryOutcome) (field selector : String)
        (rest : List (String × String)),
        q selector = QueryOutcome.missing →
        field ∉ rest.map Prod.fst →
        (extract_result_data q ((field, selector) :: rest)).lookup field = none) ∧
    (∀ (env : PageEnv) (cfg : StateConfig) (license_number business_name : Option String)
        (bs : List Nat),
        env.goto cfg.url = Except.ok () →
        env.fill cfg.license_input (pyStr license_number) = Except.ok () →
        env.click cfg.search_button = Except.ok () →
        env.wait_for_load = Except.ok () →
        env.screenshot = Except.ok bs →
        ∃ v, (verify_license_playwright env cfg license_number business_name).2 =
          Except.ok v) := by
  refine ⟨?_, ?_, ?_⟩
  · intro q field selector rest msg hq
    unfold extract_result_data
    rw [hq]
    simp [List.lookup]
  · intro q field selector rest hq hrest
    unfold extract_result_data
    rw [hq]
    exact extract_result_data_lookup_none q field rest hrest
  · intro env cfg license_number business_name bs hgoto hfill hclick hwait hshot
    rcases htb : playwright_try_body env cfg license_number with ⟨tr, r⟩
    cases r with
    | ok v => exact ⟨v, by simp [verify_license_playwright, htb]⟩
    | error e =>
      exfalso
      unfold playwright_try_body at htb
      cases hln : pyTruthy license_number <;>
        simp [hgoto, hln, hfill, hclick, hwait, hshot] at htb

/-- C5 witness: the amended statement evaluated on a raising selector
lookup, on an all-missing page, and on the all-missing page's successful
driver run for the CA profile. -/
theorem C5_missing_field_behavior_witness :
    (extract_result_data (fun _ => QueryOutcome.raised "boom")
        stateConfigCA.result_selectors).lookup "status" = some "Not found" ∧
    (extract_result_data (fun _ => QueryOutcome.missing)
        stateConfigCA.result_selectors).lookup "status" = none ∧
    ∃ v, (verify_license_playwright pageMissing stateConfigCA (some "123") none).2 =
      Except.ok v := by
  refine ⟨?_, ?_, ?_⟩
  · exact C5_missing_field_behavior.1 (fun _ => QueryOutcome.raised "boom") "status"
      ".license-status" [("name", ".contractor-name"), ("expires", ".expiration-date")]
      "boom" rfl
  · exact C5_missing_field_behavior.2.1 (fun _ => QueryOutcome.missing) "status"
      ".license-status" [("name", ".contractor-name"), ("expires", ".expiration-date")]
      rfl (by decide)
  · exact C5_missing_field_behavior.2.2 pageMissing stateConfigCA (some "123") none
      [1, 2, 3] rfl rfl rfl rfl rfl

end ContractorVerifier
